import Mathlib

/-!
Verification of the rawtoaces transform-cache and orchestration layer.

The development shallowly embeds:
* `rta::cache::Cache` from `src/rawtoaces_util/cache_base.h` (a generic
  memoizing cache with LRU eviction, kept as a list ordered by recency);
* the orchestration operations from `src/rawtoaces_util/colour_transforms.cpp`
  (`fetch_illuminant_from_multipliers`, `fetch_multipliers_from_illuminant`,
  `fetch_matrix_from_illuminant`);
* the parts of the CCT engine and metadata solver that are declared in the
  repository headers and exercised by its tests but whose implementation
  (`rawtoaces_core`) is not part of the source tree; those are modelled from
  the specification and marked as such.

C++ doubles are modelled by an arbitrary type (instantiated with `ℚ` or `Int`
in concrete statements); machine behaviour of floating point is out of scope
for the claims settled here, which are about control flow, list manipulation
and exact value propagation.
-/

namespace RTA

/-- State of `rta::cache::Cache<Descriptor, Data>` (cache_base.h).
`map` is the `std::list` ordered most-recently-used first; an element is
`(descriptor, (success flag, data))`, exactly as in the source
(`std::list<std::pair<Descriptor, std::pair<bool, Data>>>`). -/
structure Cache (D K : Type) where
  disabled : Bool := false
  capacity : Nat := 10
  verbosity : Int := 0
  name : String := "default"
  map : List (D × (Bool × K)) := []

/-- The empty cache with a given capacity (all other fields default). -/
def Cache.empty (D K : Type) (cap : Nat) : Cache D K :=
  { capacity := cap }

/-- Result of one `Cache::fetch` call: the returned `(success, data)` pair,
the cache state afterwards, whether the compute function was invoked, and
whether the eviction step (`pop_back`) executed. The last two are not data
the C++ function returns, but observable events of the call (the compute
functor runs caller code; `pop_back` is the eviction step). -/
structure FetchOutcome (D K : Type) where
  result : Bool × K
  state : Cache D K
  invoked : Bool
  evicted : Bool

/-- Removes the first element whose descriptor equals `d` from the list,
returning it and the remaining list in order. Models the linear scan plus
`splice` of `Cache::fetch`: the scan stops at the first match, `splice`
moves exactly that element, preserving the relative order of the rest. -/
def extractFirst {D K : Type} [DecidableEq D] (d : D) :
    List (D × (Bool × K)) → Option ((D × (Bool × K)) × List (D × (Bool × K)))
  | [] => none
  | e :: rest =>
    if e.1 = d then some (e, rest)
    else
      match extractFirst d rest with
      | some (f, rest2) => some (f, e :: rest2)
      | none => none

/-- `Cache::fetch` (cache_base.h lines 55-114).
* If `disabled`: `_map.clear()`, then fall through to the insertion code, so
  the fresh entry is still stored and the compute function always runs.
* Otherwise scan for an equal descriptor; on a hit, splice the entry to the
  front and return its stored pair without invoking the compute function.
* On a miss, if `_map.size() == capacity` then `pop_back()` (evict the list
  tail), then `emplace_front()` a value-initialised entry and populate it by
  running the compute function on the fresh data.
The compute function `func` models the C++ functor: it receives the
value-initialised data `init` and produces the success flag and final data. -/
def Cache.fetch {D K : Type} [DecidableEq D] (c : Cache D K) (descriptor : D)
    (func : K → Bool × K) (init : K) : FetchOutcome D K :=
  if c.disabled then
    let r := func init
    { result := r
      state := { c with map := [(descriptor, r)] }
      invoked := true
      evicted := false }
  else
    match extractFirst descriptor c.map with
    | some (e, rest) =>
      { result := e.2
        state := { c with map := e :: rest }
        invoked := false
        evicted := false }
    | none =>
      let base := if c.map.length = c.capacity then c.map.dropLast else c.map
      let r := func init
      { result := r
        state := { c with map := (descriptor, r) :: base }
        invoked := true
        evicted := decide (c.map.length = c.capacity) }

/-- Folds a sequence of `fetch` calls over the cache; the compute function
for a call may depend on its descriptor. Returns the final cache state. -/
def Cache.fetchSeq {D K : Type} [DecidableEq D] (f : D → K → Bool × K)
    (init : K) : Cache D K → List D → Cache D K
  | c, [] => c
  | c, d :: ds => Cache.fetchSeq f init (c.fetch d (f d) init).state ds

/-! ## Orchestration layer (colour_transforms.cpp, transform_cache.h) -/

/-- `std::array<double, 3>` of doubles, as a triple. -/
abbrev Vec3 (R : Type) := R × R × R

/-- `std::array<std::array<double, 3>, 3>`, row-major. -/
abbrev Mat3 (R : Type) := Vec3 (Vec3 R)

/-- transform_cache.h: `(camera make, camera model, illuminant)`. -/
abbrev CameraAndIlluminantDescriptor := String × String × String

/-- transform_cache.h: `(camera make, camera model, white balance)`. -/
abbrev CameraAndWBDescriptor (R : Type) := String × String × Vec3 R

/-- transform_cache.h: white-balance weights cached per illuminant. -/
abbrev WBFromIlluminantData (R : Type) := Vec3 R

/-- transform_cache.h: `(illuminant, white balance)` cached per weights. -/
abbrev IlluminantAndWBData (R : Type) := String × Vec3 R

/-- transform_cache.h: a cached 3x3 matrix. -/
abbrev MatrixData (R : Type) := Mat3 R

/-- Caller-visible outcome of one orchestration operation: the boolean return
value, the final contents of the output parameter, the final contents of the
by-reference `error_message`, the cache state afterwards, and whether the
inner solve (the compute functor handed to `Cache::fetch`) ran. -/
structure OpOutcome (Out D K : Type) where
  success : Bool
  out : Out
  error_message : String
  cache : Cache D K
  invoked : Bool

/-- `fetch_illuminant_from_multipliers` (colour_transforms.cpp lines
104-150). The inner solve (`solve_illuminant_from_multipliers`, which needs
the spectral solver core) is abstracted as `solve`: applied to the
value-initialised cache data it yields the success flag, the data written
into the cache entry, and the message written into the local `solve_error`.
After the fetch, `error_message` is assigned `solve_error` only when the
returned flag is false and `solve_error` is non-empty; on success the
resolved illuminant is copied into `out_illuminant`. -/
def fetch_illuminant_from_multipliers {R : Type} [DecidableEq R]
    (cache0 : Cache (CameraAndWBDescriptor R) (IlluminantAndWBData R))
    (camera_make camera_model : String) (wb_multipliers : Vec3 R)
    (solve : IlluminantAndWBData R → Bool × IlluminantAndWBData R × String)
    (init : IlluminantAndWBData R) (verbosity : Int) (disable_cache : Bool)
    (out_illuminant : String) (error_message : String) :
    OpOutcome String (CameraAndWBDescriptor R) (IlluminantAndWBData R) :=
  let descriptor : CameraAndWBDescriptor R :=
    (camera_make, camera_model, wb_multipliers)
  let cache :=
    { cache0 with verbosity := verbosity, disabled := disable_cache }
  let o := cache.fetch descriptor
    (fun data => ((solve data).1, (solve data).2.1)) init
  let solve_error := if o.invoked then (solve init).2.2 else ""
  let success := o.result.1
  { success := success
    out := if success then o.result.2.1 else out_illuminant
    error_message :=
      if success = false ∧ solve_error ≠ "" then solve_error
      else error_message
    cache := o.state
    invoked := o.invoked }

/-- `fetch_multipliers_from_illuminant` (colour_transforms.cpp lines
180-242). The source file carries unresolved merge-conflict markers at lines
198-207; every branch of the conflict performs the same fetch call, and the
surviving lines (the declaration of `solve_error` and the fetch through the
`WB_from_illuminant_cache`) are embedded here. On success `out_multipliers`
is resized to 3 and overwritten with the cached weights; on failure it is
resized to 0. -/
def fetch_multipliers_from_illuminant {R : Type}
    (cache0 : Cache CameraAndIlluminantDescriptor (WBFromIlluminantData R))
    (camera_make camera_model in_illuminant : String)
    (solve : WBFromIlluminantData R → Bool × WBFromIlluminantData R × String)
    (init : WBFromIlluminantData R) (verbosity : Int) (disable_cache : Bool)
    (out_multipliers : List R) (error_message : String) :
    OpOutcome (List R) CameraAndIlluminantDescriptor
      (WBFromIlluminantData R) :=
  let descriptor : CameraAndIlluminantDescriptor :=
    (camera_make, camera_model, in_illuminant)
  let cache :=
    { cache0 with verbosity := verbosity, disabled := disable_cache }
  let o := cache.fetch descriptor
    (fun data => ((solve data).1, (solve data).2.1)) init
  let solve_error := if o.invoked then (solve init).2.2 else ""
  let success := o.result.1
  { success := success
    out :=
      if success then [o.result.2.1, o.result.2.2.1, o.result.2.2.2]
      else []
    error_message :=
      if success = false ∧ solve_error ≠ "" then solve_error
      else error_message
    cache := o.state
    invoked := o.invoked }

/-- The row-major copy of a cached matrix into the
`std::vector<std::vector<double>>` output parameter (both fetch wrappers
resize the output to 3 rows of 3 and overwrite every element). -/
def matrix_to_lists {R : Type} (m : Mat3 R) : List (List R) :=
  [[m.1.1, m.1.2.1, m.1.2.2],
   [m.2.1.1, m.2.1.2.1, m.2.1.2.2],
   [m.2.2.1, m.2.2.2.1, m.2.2.2.2]]

/-- `fetch_matrix_from_illuminant` (colour_transforms.cpp lines 276-336).
The inner solve (`solve_matrix_from_illuminant`) returns only a boolean and
the matrix written into the cache entry: its local error message is
discarded by the source, so on failure the wrapper can only substitute the
fixed message "Failed to calculate IDT matrix from illuminant" when the
caller-supplied `error_message` is empty. On failure `out_matrix` is left
untouched. -/
def fetch_matrix_from_illuminant {R : Type}
    (cache0 : Cache CameraAndIlluminantDescriptor (MatrixData R))
    (camera_make camera_model in_illuminant : String)
    (solve : MatrixData R → Bool × MatrixData R)
    (init : MatrixData R) (verbosity : Int) (disable_cache : Bool)
    (out_matrix : List (List R)) (error_message : String) :
    OpOutcome (List (List R)) CameraAndIlluminantDescriptor (MatrixData R) :=
  let descriptor : CameraAndIlluminantDescriptor :=
    (camera_make, camera_model, in_illuminant)
  let cache :=
    { cache0 with verbosity := verbosity, disabled := disable_cache }
  let o := cache.fetch descriptor solve init
  if o.result.1 = false then
    { success := false
      out := out_matrix
      error_message :=
        if error_message = "" then
          "Failed to calculate IDT matrix from illuminant"
        else error_message
      cache := o.state
      invoked := o.invoked }
  else
    { success := true
      out := matrix_to_lists o.result.2
      error_message := error_message
      cache := o.state
      invoked := o.invoked }

/-! ## Spec-modelled spectral solver core -/

/-- Modelled from the spec: the spectral solver core
(`rta::core::SpectralSolver` of `rawtoaces_core`) is not part of the source
tree; only its callers and tests are. Following §4.3 of the spec the solver
is deterministic: each configuration or calculation step succeeds or fails
as a pure function of the camera identity and the illuminant, and after a
successful chain the fitted IDT matrix is a pure function of the same
inputs. -/
structure SpectralCore (R : Type) where
  find_camera_ok : String → String → Bool
  training_ok : Bool
  observer_ok : Bool
  find_illuminant_ok : String → Bool
  calculate_WB_ok : String → String → String → Bool
  calculate_IDT_ok : String → String → String → Bool
  IDT_matrix : String → String → String → Mat3 R

/-- `solve_matrix_from_illuminant` (colour_transforms.cpp lines 244-274)
over the spec-modelled solver core: configure the solver
(`configure_spectral_solver`: find the camera, load training data, load the
observer, resolve the illuminant when non-empty), then `calculate_WB` and
`calculate_IDT_matrix`; on success copy the solver matrix into the cache
entry, on any failure return false with the entry untouched. -/
def solve_matrix_from_illuminant {R : Type} (core : SpectralCore R)
    (camera_make camera_model in_illuminant : String)
    (cache_data : MatrixData R) : Bool × MatrixData R :=
  if core.find_camera_ok camera_make camera_model = false then
    (false, cache_data)
  else if core.training_ok = false then (false, cache_data)
  else if core.observer_ok = false then (false, cache_data)
  else if in_illuminant ≠ "" ∧
      core.find_illuminant_ok in_illuminant = false then
    (false, cache_data)
  else if core.calculate_WB_ok camera_make camera_model in_illuminant
      = false then
    (false, cache_data)
  else if core.calculate_IDT_ok camera_make camera_model in_illuminant
      = false then
    (false, cache_data)
  else (true, core.IDT_matrix camera_make camera_model in_illuminant)

/-- Modelled from the spec: the direct, uncached solver sequence of §8 and
testColourTransforms.cpp lines 253-263 — `find_camera`, load training data,
load the observer, `find_illuminant`, `calculate_WB`,
`calculate_IDT_matrix`, then read the IDT matrix; `none` when any step
fails. -/
def direct_IDT_matrix {R : Type} (core : SpectralCore R)
    (camera_make camera_model in_illuminant : String) : Option (Mat3 R) :=
  if core.find_camera_ok camera_make camera_model &&
     core.training_ok && core.observer_ok &&
     core.find_illuminant_ok in_illuminant &&
     core.calculate_WB_ok camera_make camera_model in_illuminant &&
     core.calculate_IDT_ok camera_make camera_model in_illuminant
  then some (core.IDT_matrix camera_make camera_model in_illuminant)
  else none

/-! ## Spec-modelled CCT engine -/

/-- Modelled from the spec: a row of the Robertson table used by the CCT
engine, whose implementation (`rawtoaces_core`) is not part of the source
tree: reciprocal temperature in mired, the uv chromaticity of the blackbody
point and the tangent of the isotherm slope. Per the spec the table is
ordered by descending CCT, i.e. ascending mired, spanning 20 mired (50000 K)
to 500 mired (2000 K). -/
structure RobertsonRow where
  mired : ℚ
  u : ℚ
  v : ℚ
  t : ℚ

/-- Modelled from the spec (§4.1): XYZ to CIE 1960 uv chromaticity
(`u = 4X / (X + 15Y + 3Z)`, `v = 6Y / (X + 15Y + 3Z)`). -/
def XYZ_to_uv (XYZ : ℚ × ℚ × ℚ) : ℚ × ℚ :=
  let s := XYZ.1 + 15 * XYZ.2.1 + 3 * XYZ.2.2
  (4 * XYZ.1 / s, 6 * XYZ.2.1 / s)

/-- Modelled from the spec (§4.1): the signed perpendicular distance from a
chromaticity point to a table row isotherm, normalised by the length
`sqrt(1 + t^2)` of the direction vector. The square root is irrational, so
the model takes the square-root routine as the parameter `sq`; the claims
proved below depend only on the signs of the distances, which the scan
tests directly, not on the value of `sq`. -/
def robertson_length (sq : ℚ → ℚ) (uv : ℚ × ℚ) (row : RobertsonRow) : ℚ :=
  ((uv.2 - row.v) - row.t * (uv.1 - row.u)) / sq (1 + row.t ^ 2)

/-- Modelled from the spec (§4.1): the linear scan over adjacent table rows
selecting the first bracketing pair whose signed distances change sign. -/
def robertson_scan (sq : ℚ → ℚ) (uv : ℚ × ℚ) :
    List RobertsonRow → Option (RobertsonRow × RobertsonRow)
  | r1 :: r2 :: rest =>
    if 0 ≤ robertson_length sq uv r1 ∧ robertson_length sq uv r2 < 0 then
      some (r1, r2)
    else robertson_scan sq uv (r2 :: rest)
  | _ => none

/-- Modelled from the spec (§4.1): `XYZ_to_color_temperature`. Converts XYZ
to uv, scans the Robertson table for the bracketing pair, interpolates the
mired value by the ratio of the two distances and converts back via
`1e6 / mired`. When no bracketing pair exists the result is clamped: 50000 K
when the point lies on the high-temperature side of the first row, 2000 K
beyond the low-temperature end of the table. -/
def XYZ_to_color_temperature (sq : ℚ → ℚ) (table : List RobertsonRow)
    (XYZ : ℚ × ℚ × ℚ) : ℚ :=
  let uv := XYZ_to_uv XYZ
  match robertson_scan sq uv table with
  | some (r1, r2) =>
    let d1 := robertson_length sq uv r1
    let d2 := robertson_length sq uv r2
    let f := d1 / (d1 - d2)
    1000000 / (r1.mired + f * (r2.mired - r1.mired))
  | none =>
    match table with
    | r0 :: _ => if robertson_length sq uv r0 < 0 then 50000 else 2000
    | [] => 2000

/-- Modelled from the spec (§4.1): the fixed EXIF/DNG light-source code to
nominal colour temperature table of `light_source_to_color_temp`. The
repository tests pin code 17 to 2856 K and the fallback to 5500 K. -/
def light_source_table : List (Nat × ℚ) :=
  [(0, 5500), (1, 5500), (2, 3500), (3, 3400), (10, 5550), (17, 2856),
   (18, 4874), (19, 6774), (20, 5500), (21, 6500), (22, 7500)]

/-- Modelled from the spec (§4.1): `light_source_to_color_temp`
(`rawtoaces_core` is not part of the source tree). Tag values at or above
32768 encode `tag - 32768` Kelvin literally (including 0 K for exactly
32768); mapped codes return the table temperature; every other code falls
back to 5500 K. -/
def light_source_to_color_temp (tag : Nat) : ℚ :=
  if 32768 ≤ tag then (tag : ℚ) - 32768
  else
    match light_source_table.lookup tag with
    | some temp => temp
    | none => 5500

/-! ## Spec-modelled metadata solver pieces -/

/-- A calibration entry of `rta::core::Metadata` (field names as compared by
`operator==` in transform_cache.cpp): a light-source code, a
camera-calibration matrix and an XYZ-to-camera matrix, row-major. -/
structure Calibration (R : Type) where
  illuminant : Nat
  camera_calibration_matrix : List R
  XYZ_to_RGB_matrix : List R

/-- `rta::core::Metadata` as used by transform_cache.cpp: two calibration
entries, a neutral-RGB vector and a baseline exposure. -/
structure Metadata (R : Type) where
  calibration : Calibration R × Calibration R
  neutral_RGB : List R
  baseline_exposure : R

/-- Modelled from the spec (§4.2): `find_XYZ_to_camera_matrix`, whose
implementation (`rawtoaces_core`) is not part of the source tree. A
calibration illuminant is usable when its light-source code is non-zero
(testDNGIdt.cpp flips `calibration[0].illuminant` to 0 to make it
unusable). With fewer than two usable calibration illuminants the function
logs "No calibration illuminants were found." and returns the first
calibration matrix verbatim; otherwise, with an empty neutral-RGB vector,
it logs "No neutral RGB values were found." and does the same; otherwise it
runs the iterative mired re-weighting refinement, abstracted here as the
parameter `refine` since no claim depends on its values. The second
component of the result collects the lines logged to stderr. -/
def find_XYZ_to_camera_matrix {R : Type}
    (refine : Metadata R → List R → List R)
    (metadata : Metadata R) (neutralRGB : List R) : List R × List String :=
  let usable :=
    (if metadata.calibration.1.illuminant ≠ 0 then 1 else 0) +
    (if metadata.calibration.2.illuminant ≠ 0 then 1 else 0)
  if usable < 2 then
    (metadata.calibration.1.XYZ_to_RGB_matrix,
     ["No calibration illuminants were found."])
  else if neutralRGB.isEmpty then
    (metadata.calibration.1.XYZ_to_RGB_matrix,
     ["No neutral RGB values were found."])
  else (refine metadata neutralRGB, [])

section CacheLemmas

variable {D K : Type} [DecidableEq D]

theorem extractFirst_eq_none_iff (d : D) (l : List (D × (Bool × K))) :
    extractFirst d l = none ↔ ∀ e ∈ l, e.1 ≠ d := by
  induction l with
  | nil => simp [extractFirst]
  | cons e rest ih =>
    constructor
    · intro h e' he'
      by_cases hd : e.1 = d
      · simp only [extractFirst, if_pos hd] at h
        exact Option.noConfusion h
      · simp only [extractFirst, if_neg hd] at h
        rcases List.mem_cons.mp he' with rfl | hmem
        · exact hd
        · cases hrec : extractFirst d rest with
          | none => exact (ih.mp hrec) e' hmem
          | some p => rw [hrec] at h; cases h
    · intro hall
      have hd : e.1 ≠ d := hall e (List.mem_cons_self e rest)
      have hrest : extractFirst d rest = none :=
        ih.mpr (fun q hq => hall q (List.mem_cons_of_mem _ hq))
      simp only [extractFirst, if_neg hd, hrest]

theorem extractFirst_split (d : D) (e : D × (Bool × K))
    (pre post : List (D × (Bool × K)))
    (hpre : ∀ p ∈ pre, p.1 ≠ d) (he : e.1 = d) :
    extractFirst d (pre ++ e :: post) = some (e, pre ++ post) := by
  induction pre with
  | nil => simp [extractFirst, he]
  | cons p pre ih =>
    have hp : p.1 ≠ d := hpre p (List.mem_cons_self p pre)
    have hrest := ih (fun q hq => hpre q (List.mem_cons_of_mem _ hq))
    simp [extractFirst, hp, hrest]

/-- `fetch` never changes the control fields of the cache. -/
theorem Cache.fetch_preserves (c : Cache D K) (d : D) (f : K → Bool × K)
    (init : K) :
    (c.fetch d f init).state.disabled = c.disabled ∧
    (c.fetch d f init).state.capacity = c.capacity := by
  unfold Cache.fetch
  by_cases hdis : c.disabled
  · simp [hdis]
  · simp only [hdis]
    cases hx : extractFirst d c.map with
    | some p => simp [hx]
    | none => simp [hx]

/-- A hit: if the map splits as `pre ++ e :: post` with `e` the first entry
for the descriptor, `fetch` returns the stored pair, does not invoke the
compute function, and moves the entry to the head. -/
theorem Cache.fetch_hit (c : Cache D K) (d : D) (f : K → Bool × K) (init : K)
    (e : D × (Bool × K)) (pre post : List (D × (Bool × K)))
    (hdis : c.disabled = false) (hmap : c.map = pre ++ e :: post)
    (hpre : ∀ p ∈ pre, p.1 ≠ d) (he : e.1 = d) :
    (c.fetch d f init).result = e.2 ∧
    (c.fetch d f init).invoked = false ∧
    (c.fetch d f init).state.map = e :: (pre ++ post) := by
  have hx : extractFirst d c.map = some (e, pre ++ post) := by
    rw [hmap]; exact extractFirst_split d e pre post hpre he
  unfold Cache.fetch
  simp [hdis, hx]

/-- A miss: if no entry matches the descriptor, `fetch` invokes the compute
function and inserts the fresh entry at the head, evicting the list tail
exactly when the cache is at capacity. -/
theorem Cache.fetch_miss (c : Cache D K) (d : D) (f : K → Bool × K) (init : K)
    (hdis : c.disabled = false) (hfresh : ∀ e ∈ c.map, e.1 ≠ d) :
    (c.fetch d f init).result = f init ∧
    (c.fetch d f init).invoked = true ∧
    (c.fetch d f init).state.map =
      (d, f init) ::
        (if c.map.length = c.capacity then c.map.dropLast else c.map) := by
  have hx : extractFirst d c.map = none :=
    (extractFirst_eq_none_iff d c.map).mpr hfresh
  unfold Cache.fetch
  simp [hdis, hx]

/-- Taking `n` absorbs an inner `take n` after an append. -/
theorem take_append_absorb {α : Type} (l₁ l₂ : List α) (n : Nat) :
    (l₁ ++ l₂.take n).take n = (l₁ ++ l₂).take n := by
  rw [List.take_append_eq_append_take, List.take_append_eq_append_take,
    List.take_take, Nat.min_eq_left (Nat.sub_le n l₁.length)]

/-- Fetching a sequence of pairwise-distinct, previously unseen descriptors
leaves the cache holding those entries in most-recently-used-first order,
truncated to the capacity (the oldest entries beyond capacity evicted). -/
theorem Cache.fetchSeq_fresh (f : D → K → Bool × K) (init : K) (ds : List D) :
    ∀ (c : Cache D K), c.disabled = false → 1 ≤ c.capacity →
      c.map.length ≤ c.capacity → ds.Nodup →
      (∀ d ∈ ds, ∀ e ∈ c.map, e.1 ≠ d) →
      (Cache.fetchSeq f init c ds).map
        = ((ds.map fun d => (d, f d init)).reverse ++ c.map).take c.capacity := by
  induction ds with
  | nil =>
    intro c _ _ hlen _ _
    simp [Cache.fetchSeq, List.take_of_length_le hlen]
  | cons d ds ih =>
    intro c hdis hcap hlen hnodup hfresh
    obtain ⟨_, _, hmap⟩ := Cache.fetch_miss c d (f d) init hdis
      (fun e he => hfresh d (List.mem_cons_self d ds) e he)
    obtain ⟨hdis1, hcap1⟩ := Cache.fetch_preserves c d (f d) init
    set c1 := (c.fetch d (f d) init).state with hc1
    have hmap1 : c1.map = ((d, f d init) :: c.map).take c.capacity := by
      obtain ⟨m, hm⟩ : ∃ m, c.capacity = m + 1 :=
        ⟨c.capacity - 1, (Nat.succ_pred_eq_of_pos hcap).symm⟩
      rw [hmap, hm, List.take_succ_cons]
      by_cases hful : c.map.length = c.capacity
      · rw [if_pos (hm ▸ hful), List.dropLast_eq_take, hful, hm,
          Nat.add_sub_cancel]
      · have hle : c.map.length ≤ m := by omega
        rw [if_neg (show ¬c.map.length = m + 1 by omega),
          List.take_of_length_le hle]
    have hlen1 : c1.map.length ≤ c.capacity := by
      rw [hmap1, List.length_take]; exact Nat.min_le_left _ _
    have hfresh1 : ∀ d' ∈ ds, ∀ e ∈ c1.map, e.1 ≠ d' := by
      intro d' hd' e he
      rw [hmap1] at he
      have he' : e ∈ (d, f d init) :: c.map := List.take_subset _ _ he
      rcases List.mem_cons.mp he' with rfl | hmem
      · show d ≠ d'
        intro h
        exact (List.nodup_cons.mp hnodup).1 (h ▸ hd')
      · exact hfresh d' (List.mem_cons_of_mem _ hd') e hmem
    have hrec := ih c1 (hdis1.trans hdis) (hcap1 ▸ hcap)
      (hcap1 ▸ hlen1) (List.nodup_cons.mp hnodup).2 hfresh1
    show (Cache.fetchSeq f init c1 ds).map = _
    rw [hrec, hcap1, hmap1, take_append_absorb]
    congr 1
    simp [List.reverse_cons, List.append_assoc]

/-- Removing the first match shortens the list by exactly one. -/
theorem extractFirst_length (d : D) :
    ∀ (l : List (D × (Bool × K))) (e : D × (Bool × K))
      (rest : List (D × (Bool × K))),
      extractFirst d l = some (e, rest) → rest.length + 1 = l.length := by
  intro l
  induction l with
  | nil => intro e rest h; simp [extractFirst] at h
  | cons p l ih =>
    intro e rest h
    by_cases hp : p.1 = d
    · simp only [extractFirst, if_pos hp] at h
      cases h
      simp
    · simp only [extractFirst, if_neg hp] at h
      cases hrec : extractFirst d l with
      | none => rw [hrec] at h; cases h
      | some q =>
        rw [hrec] at h
        cases h
        have := ih q.1 q.2 hrec
        simp only [List.length_cons]
        omega

/-- One `fetch` call keeps the entry count within the capacity, provided the
capacity is at least 1 and the count was within the capacity before. -/
theorem Cache.fetch_length_le (c : Cache D K) (d : D) (g : K → Bool × K)
    (init : K) (hcap : 1 ≤ c.capacity) (hlen : c.map.length ≤ c.capacity) :
    (c.fetch d g init).state.map.length ≤ c.capacity := by
  unfold Cache.fetch
  by_cases hdis : c.disabled
  · simp [hdis, hcap]
  · rw [if_neg hdis]
    cases hx : extractFirst d c.map with
    | some p =>
      obtain ⟨e, rest⟩ := p
      have hl := extractFirst_length d c.map e rest hx
      show (e :: rest).length ≤ c.capacity
      simp only [List.length_cons]
      omega
    | none =>
      show ((d, g init) ::
        (if c.map.length = c.capacity then c.map.dropLast
         else c.map)).length ≤ c.capacity
      by_cases hful : c.map.length = c.capacity
      · rw [if_pos hful]
        simp only [List.length_cons, List.length_dropLast]
        omega
      · rw [if_neg hful]
        simp only [List.length_cons]
        omega

/-- `fetchSeq` never changes the control fields of the cache. -/
theorem Cache.fetchSeq_preserves (f : D → K → Bool × K) (init : K)
    (ds : List D) :
    ∀ c : Cache D K,
      (Cache.fetchSeq f init c ds).capacity = c.capacity ∧
      (Cache.fetchSeq f init c ds).disabled = c.disabled := by
  induction ds with
  | nil => intro c; exact ⟨rfl, rfl⟩
  | cons d ds ih =>
    intro c
    obtain ⟨h1, h2⟩ := ih (c.fetch d (f d) init).state
    obtain ⟨h3, h4⟩ := Cache.fetch_preserves c d (f d) init
    exact ⟨h1.trans h4, h2.trans h3⟩

/-- The capacity bound is an invariant of arbitrary `fetch` sequences. -/
theorem Cache.fetchSeq_length_le (f : D → K → Bool × K) (init : K)
    (ds : List D) :
    ∀ (c : Cache D K), 1 ≤ c.capacity → c.map.length ≤ c.capacity →
      (Cache.fetchSeq f init c ds).map.length ≤ c.capacity := by
  induction ds with
  | nil => intro c _ hlen; exact hlen
  | cons d ds ih =>
    intro c hcap hlen
    obtain ⟨_, hcap1⟩ := Cache.fetch_preserves c d (f d) init
    have hstep := Cache.fetch_length_le c d (f d) init hcap hlen
    exact hcap1 ▸ ih (c.fetch d (f d) init).state
      (hcap1 ▸ hcap) (hcap1 ▸ hstep)

/-- The eviction step runs only when the entry count equals the capacity. -/
theorem Cache.evicted_imp (c : Cache D K) (d : D) (g : K → Bool × K)
    (init : K) (h : (c.fetch d g init).evicted = true) :
    c.map.length = c.capacity := by
  unfold Cache.fetch at h
  by_cases hdis : c.disabled
  · rw [if_pos hdis] at h
    exact absurd (show (false : Bool) = true from h) (by simp)
  · rw [if_neg hdis] at h
    cases hx : extractFirst d c.map with
    | some p =>
      obtain ⟨e, rest⟩ := p
      rw [hx] at h
      exact absurd (show (false : Bool) = true from h) (by simp)
    | none =>
      rw [hx] at h
      exact of_decide_eq_true
        (show decide (c.map.length = c.capacity) = true from h)

end CacheLemmas

/-! ## Claims -/

/-- C2: For every enabled `Cache` of capacity `N ≥ 1` and `N + 1` distinct
descriptors: the first `N` fetches fill the cache in most-recently-used
first order; after the `(N+1)`-th fetch exactly the least-recently-used
entry (the list tail) has been evicted and all other entries remain, in
order; and fetching a descriptor already present returns its stored pair,
moves the entry to the most-recently-used position (list head) and does not
invoke the compute function, so a touched entry is not evicted ahead of
untouched older entries. -/
theorem claim_C2 {D K : Type} [DecidableEq D] (N : Nat) (hN : 1 ≤ N)
    (ds : List D) (hlen : ds.length = N + 1) (hnodup : ds.Nodup)
    (f : D → K → Bool × K) (init : K) :
    (Cache.fetchSeq f init (Cache.empty D K N) (ds.take N)).map
      = ((ds.take N).map fun d => (d, f d init)).reverse
    ∧ (Cache.fetchSeq f init (Cache.empty D K N) ds).map
      = ((ds.map fun d => (d, f d init)).reverse).take N
    ∧ ∀ (c : Cache D K) (d : D) (g : K → Bool × K) (e : D × (Bool × K))
        (pre post : List (D × (Bool × K))),
        c.disabled = false → c.map = pre ++ e :: post →
        (∀ p ∈ pre, p.1 ≠ d) → e.1 = d →
        (c.fetch d g init).result = e.2 ∧
        (c.fetch d g init).invoked = false ∧
        (c.fetch d g init).state.map = e :: (pre ++ post) := by
  refine ⟨?_, ?_, ?_⟩
  · have h0 := Cache.fetchSeq_fresh f init (ds.take N) (Cache.empty D K N)
      rfl hN (by simp [Cache.empty])
      (List.Nodup.sublist (List.take_sublist N ds) hnodup)
      (by intro d _ e he; simp [Cache.empty] at he)
    rw [h0]
    show (_ ++ ([] : List _)).take N = _
    rw [List.append_nil]
    apply List.take_of_length_le
    simp [hlen]
  · have h0 := Cache.fetchSeq_fresh f init ds (Cache.empty D K N)
      rfl hN (by simp [Cache.empty]) hnodup
      (by intro d _ e he; simp [Cache.empty] at he)
    rw [h0]
    show (_ ++ ([] : List _)).take N = _
    rw [List.append_nil]
  · intro c d g e pre post hdis hmap hpre he
    exact Cache.fetch_hit c d g init e pre post hdis hmap hpre he

/-- Witness for C2 at `N = 1`, `ds = [0, 1]`. -/
theorem claim_C2_witness :
    1 ≤ 1 ∧ ([0, 1] : List Nat).length = 1 + 1 ∧ ([0, 1] : List Nat).Nodup ∧
    ((Cache.fetchSeq (fun d _ => (true, d)) 0 (Cache.empty Nat Nat 1)
        (([0, 1] : List Nat).take 1)).map
      = ((([0, 1] : List Nat).take 1).map fun d => (d, true, d)).reverse
    ∧ (Cache.fetchSeq (fun d _ => (true, d)) 0
        (Cache.empty Nat Nat 1) [0, 1]).map
      = ((([0, 1] : List Nat).map fun d => (d, true, d)).reverse).take 1
    ∧ ∀ (c : Cache Nat Nat) (d : Nat) (g : Nat → Bool × Nat)
        (e : Nat × (Bool × Nat)) (pre post : List (Nat × (Bool × Nat))),
        c.disabled = false → c.map = pre ++ e :: post →
        (∀ p ∈ pre, p.1 ≠ d) → e.1 = d →
        (c.fetch d g 0).result = e.2 ∧
        (c.fetch d g 0).invoked = false ∧
        (c.fetch d g 0).state.map = e :: (pre ++ post)) :=
  ⟨by decide, by decide, by decide,
   claim_C2 1 (by decide) [0, 1] (by decide) (by decide)
     (fun d _ => (true, d)) 0⟩

/-- C3: on a cache miss whose compute returns `false`, the entry is still
stored at the head with the failure flag; and as long as an entry
`(d, (false, v))` remains stored, fetching `d` again replays the stored
failure without invoking the compute function — a failure is memoized, not
retried. -/
theorem claim_C3 {D K : Type} [DecidableEq D] (c : Cache D K) (d : D)
    (f : K → Bool × K) (init : K) (v : K)
    (hdis : c.disabled = false) (hfresh : ∀ e ∈ c.map, e.1 ≠ d)
    (hf : f init = (false, v)) :
    ((c.fetch d f init).result = (false, v) ∧
     (c.fetch d f init).invoked = true ∧
     ∃ base, (c.fetch d f init).state.map = (d, (false, v)) :: base)
    ∧ ∀ (c' : Cache D K) (g : K → Bool × K)
        (pre post : List (D × (Bool × K))),
        c'.disabled = false → c'.map = pre ++ (d, (false, v)) :: post →
        (∀ p ∈ pre, p.1 ≠ d) →
        (c'.fetch d g init).result = (false, v) ∧
        (c'.fetch d g init).invoked = false := by
  constructor
  · obtain ⟨h1, h2, h3⟩ := Cache.fetch_miss c d f init hdis hfresh
    rw [hf] at h1 h3
    exact ⟨h1, h2, ⟨_, h3⟩⟩
  · intro c' g pre post hdis' hmap' hpre'
    obtain ⟨h1, h2, _⟩ := Cache.fetch_hit c' d g init (d, (false, v))
      pre post hdis' hmap' hpre' rfl
    exact ⟨h1, h2⟩

/-- Witness for C3 on an empty cache of capacity 2 with a failing compute. -/
theorem claim_C3_witness :
    (Cache.empty Nat Nat 2).disabled = false ∧
    (∀ e ∈ (Cache.empty Nat Nat 2).map, e.1 ≠ 5) ∧
    ((fun _ => ((false : Bool), (7 : Nat))) 0 = (false, 7)) ∧
    ((((Cache.empty Nat Nat 2).fetch 5 (fun _ => (false, 7)) 0).result
        = (false, 7) ∧
      ((Cache.empty Nat Nat 2).fetch 5 (fun _ => (false, 7)) 0).invoked
        = true ∧
      ∃ base,
        ((Cache.empty Nat Nat 2).fetch 5 (fun _ => (false, 7)) 0).state.map
          = (5, (false, 7)) :: base)
    ∧ ∀ (c' : Cache Nat Nat) (g : Nat → Bool × Nat)
        (pre post : List (Nat × (Bool × Nat))),
        c'.disabled = false → c'.map = pre ++ (5, (false, 7)) :: post →
        (∀ p ∈ pre, p.1 ≠ 5) →
        (c'.fetch 5 g 0).result = (false, 7) ∧
        (c'.fetch 5 g 0).invoked = false) :=
  ⟨rfl, by decide, rfl,
   claim_C3 (Cache.empty Nat Nat 2) 5 (fun _ => (false, 7)) 0 7
     rfl (by decide) rfl⟩

/-- C8: with the capacity fixed at some `N ≥ 1`, no sequence of fetches
pushes the entry count above `N`, and whenever the eviction step
(`pop_back`) executes the list is non-empty; with the exact-equality guard
and capacity 0 (third conjunct) the bound already fails after one fetch. -/
theorem claim_C8 {D K : Type} [DecidableEq D] (N : Nat) (hN : 1 ≤ N)
    (c : Cache D K) (hdis : c.disabled = false) (hcap : c.capacity = N)
    (hlen : c.map.length ≤ N) (f : D → K → Bool × K) (init : K) :
    (∀ ds : List D, (Cache.fetchSeq f init c ds).map.length ≤ N)
    ∧ (∀ (ds : List D) (d : D) (g : K → Bool × K),
        ((Cache.fetchSeq f init c ds).fetch d g init).evicted = true →
        0 < (Cache.fetchSeq f init c ds).map.length)
    ∧ ((Cache.empty Nat Nat 0).fetch 0 (fun k => (true, k)) 0).state.map.length
        > (Cache.empty Nat Nat 0).capacity := by
  refine ⟨?_, ?_, by decide⟩
  · intro ds
    have h := Cache.fetchSeq_length_le f init ds c
      (by rw [hcap]; exact hN) (by rw [hcap]; exact hlen)
    rw [hcap] at h
    exact h
  · intro ds d g hev
    have heq := Cache.evicted_imp _ d g init hev
    have hpres := Cache.fetchSeq_preserves f init ds c
    rw [heq, hpres.1, hcap]
    omega

/-- Witness for C8 at `N = 1` on the empty cache. -/
theorem claim_C8_witness :
    1 ≤ 1 ∧ (Cache.empty Nat Nat 1).disabled = false ∧
    (Cache.empty Nat Nat 1).capacity = 1 ∧
    (Cache.empty Nat Nat 1).map.length ≤ 1 ∧
    ((∀ ds : List Nat,
        (Cache.fetchSeq (fun d _ => (true, d)) 0
          (Cache.empty Nat Nat 1) ds).map.length ≤ 1)
    ∧ (∀ (ds : List Nat) (d : Nat) (g : Nat → Bool × Nat),
        ((Cache.fetchSeq (fun d _ => (true, d)) 0
            (Cache.empty Nat Nat 1) ds).fetch d g 0).evicted = true →
        0 < (Cache.fetchSeq (fun d _ => (true, d)) 0
            (Cache.empty Nat Nat 1) ds).map.length)
    ∧ ((Cache.empty Nat Nat 0).fetch 0
          (fun k => (true, k)) 0).state.map.length
        > (Cache.empty Nat Nat 0).capacity) :=
  ⟨by decide, rfl, rfl, by decide,
   claim_C8 1 (by decide) (Cache.empty Nat Nat 1) rfl rfl (by decide)
     (fun d _ => (true, d)) 0⟩

/-- C9: a fetch on a disabled cache clears all existing entries yet still
stores the freshly computed entry, leaving exactly one entry; fetching the
same descriptor after re-enabling the cache hits that entry and returns it
without invoking its compute function. -/
theorem claim_C9 {D K : Type} [DecidableEq D] (c : Cache D K) (d : D)
    (f g : K → Bool × K) (init : K) (hdis : c.disabled = true) :
    (c.fetch d f init).state.map = [(d, f init)]
    ∧ ({ (c.fetch d f init).state with
          disabled := false }.fetch d g init).result = f init
    ∧ ({ (c.fetch d f init).state with
          disabled := false }.fetch d g init).invoked = false
    ∧ ({ (c.fetch d f init).state with
          disabled := false }.fetch d g init).state.map = [(d, f init)] := by
  have h1 : (c.fetch d f init).state.map = [(d, f init)] := by
    unfold Cache.fetch
    rw [if_pos hdis]
  have hdis1 :
      ({ (c.fetch d f init).state with disabled := false } :
        Cache D K).disabled = false := rfl
  have hmap1 :
      ({ (c.fetch d f init).state with disabled := false } :
        Cache D K).map = [] ++ (d, f init) :: [] := h1
  obtain ⟨h2, h3, h4⟩ := Cache.fetch_hit
    { (c.fetch d f init).state with disabled := false } d g init
    (d, f init) [] [] hdis1 hmap1 (by intro p hp; cases hp) rfl
  exact ⟨h1, h2, h3, h4⟩

/-- Witness for C9 on a disabled cache. -/
theorem claim_C9_witness :
    ({ Cache.empty Nat Nat 2 with disabled := true } :
        Cache Nat Nat).disabled = true ∧
    ((({ Cache.empty Nat Nat 2 with disabled := true } :
          Cache Nat Nat).fetch 3 (fun _ => (true, 9)) 0).state.map
        = [(3, (true, 9))]
    ∧ ({ (({ Cache.empty Nat Nat 2 with disabled := true } :
            Cache Nat Nat).fetch 3 (fun _ => (true, 9)) 0).state with
          disabled := false }.fetch 3 (fun _ => (false, 0)) 0).result
        = (true, 9)
    ∧ ({ (({ Cache.empty Nat Nat 2 with disabled := true } :
            Cache Nat Nat).fetch 3 (fun _ => (true, 9)) 0).state with
          disabled := false }.fetch 3 (fun _ => (false, 0)) 0).invoked
        = false
    ∧ ({ (({ Cache.empty Nat Nat 2 with disabled := true } :
            Cache Nat Nat).fetch 3 (fun _ => (true, 9)) 0).state with
          disabled := false }.fetch 3 (fun _ => (false, 0)) 0).state.map
        = [(3, (true, 9))]) :=
  ⟨rfl,
   claim_C9 { Cache.empty Nat Nat 2 with disabled := true } 3
     (fun _ => (true, 9)) (fun _ => (false, 0)) 0 rfl⟩

/-- C10: `fetch_multipliers_from_illuminant` leaves exactly 3 elements in
`out_multipliers` on every successful return, and resizes it to 0 on every
failing return, erasing any content the caller supplied. -/
theorem claim_C10 {R : Type}
    (cache0 : Cache CameraAndIlluminantDescriptor (WBFromIlluminantData R))
    (camera_make camera_model in_illuminant : String)
    (solve : WBFromIlluminantData R → Bool × WBFromIlluminantData R × String)
    (init : WBFromIlluminantData R) (verbosity : Int) (disable_cache : Bool)
    (out_multipliers : List R) (error_message : String) :
    ((fetch_multipliers_from_illuminant cache0 camera_make camera_model
        in_illuminant solve init verbosity disable_cache out_multipliers
        error_message).success = true →
      (fetch_multipliers_from_illuminant cache0 camera_make camera_model
        in_illuminant solve init verbosity disable_cache out_multipliers
        error_message).out.length = 3)
    ∧ ((fetch_multipliers_from_illuminant cache0 camera_make camera_model
        in_illuminant solve init verbosity disable_cache out_multipliers
        error_message).success = false →
      (fetch_multipliers_from_illuminant cache0 camera_make camera_model
        in_illuminant solve init verbosity disable_cache out_multipliers
        error_message).out = []) := by
  constructor
  · intro h
    simp only [fetch_multipliers_from_illuminant] at h ⊢
    simp [h]
  · intro h
    simp only [fetch_multipliers_from_illuminant] at h ⊢
    simp [h]

/-- Witness for C10: a successful fetch over `Int` data yields 3 elements
even though the caller supplied 4. -/
theorem claim_C10_witness :
    (fetch_multipliers_from_illuminant
        (Cache.empty CameraAndIlluminantDescriptor
          (WBFromIlluminantData Int) 10)
        "make" "model" "D65" (fun data => (true, data, "")) (2, 3, 4)
        0 false [9, 9, 9, 9] "").success = true ∧
    (fetch_multipliers_from_illuminant
        (Cache.empty CameraAndIlluminantDescriptor
          (WBFromIlluminantData Int) 10)
        "make" "model" "D65" (fun data => (true, data, "")) (2, 3, 4)
        0 false [9, 9, 9, 9] "").out.length = 3 :=
  ⟨by decide,
   (claim_C10
      (Cache.empty CameraAndIlluminantDescriptor
        (WBFromIlluminantData Int) 10)
      "make" "model" "D65" (fun data => (true, data, "")) (2, 3, 4)
      0 false [9, 9, 9, 9] "").1 (by decide)⟩

/-- C1 counterexample: the claim fails on a replayed cached failure. The
first `fetch_illuminant_from_multipliers` call computes a failure whose
solve message is non-empty; the second call with the same descriptor
replays the cached failure without running the solve, returns false, and
leaves the caller-visible `error_message` empty instead of setting a
non-empty descriptive message. -/
theorem claim_C1_counterexample :
    (fetch_illuminant_from_multipliers (R := Int)
      (fetch_illuminant_from_multipliers (R := Int)
        (Cache.empty (CameraAndWBDescriptor Int) (IlluminantAndWBData Int) 10)
        "make" "model" (1, 1, 1)
        (fun data => (false, data, "solve failed")) ("", (0, 0, 0))
        0 false "" "").cache
      "make" "model" (1, 1, 1)
      (fun data => (false, data, "solve failed")) ("", (0, 0, 0))
      0 false "" "").success = false
    ∧ (fetch_illuminant_from_multipliers (R := Int)
      (fetch_illuminant_from_multipliers (R := Int)
        (Cache.empty (CameraAndWBDescriptor Int) (IlluminantAndWBData Int) 10)
        "make" "model" (1, 1, 1)
        (fun data => (false, data, "solve failed")) ("", (0, 0, 0))
        0 false "" "").cache
      "make" "model" (1, 1, 1)
      (fun data => (false, data, "solve failed")) ("", (0, 0, 0))
      0 false "" "").error_message = "" := by
  constructor <;> decide

/-- C1 (amended): error propagation of the three orchestration wrappers.
For `fetch_illuminant_from_multipliers` and
`fetch_multipliers_from_illuminant`: when the operation fails after actually
running the inner solve (a computed failure on a cache miss or with the
cache disabled) and the solve produced a non-empty message, `error_message`
is set to exactly that message; when it fails without running the solve (a
replayed cached failure), `error_message` is left unchanged, so it can stay
empty. `fetch_matrix_from_illuminant` never propagates the inner solve
message (the source discards it): on every failure it leaves a non-empty
`error_message`, substituting the fixed message "Failed to calculate IDT
matrix from illuminant" exactly when the caller-supplied message was
empty. -/
theorem claim_C1 {R : Type} [DecidableEq R]
    (cache1 : Cache (CameraAndWBDescriptor R) (IlluminantAndWBData R))
    (make1 model1 : String) (wb : Vec3 R)
    (solve1 : IlluminantAndWBData R → Bool × IlluminantAndWBData R × String)
    (init1 : IlluminantAndWBData R) (verb1 : Int) (dis1 : Bool)
    (out1 err1 : String)
    (cache2 : Cache CameraAndIlluminantDescriptor (WBFromIlluminantData R))
    (make2 model2 ill2 : String)
    (solve2 : WBFromIlluminantData R → Bool × WBFromIlluminantData R × String)
    (init2 : WBFromIlluminantData R) (verb2 : Int) (dis2 : Bool)
    (out2 : List R) (err2 : String)
    (cache3 : Cache CameraAndIlluminantDescriptor (MatrixData R))
    (make3 model3 ill3 : String)
    (solve3 : MatrixData R → Bool × MatrixData R)
    (init3 : MatrixData R) (verb3 : Int) (dis3 : Bool)
    (out3 : List (List R)) (err3 : String) :
    (((fetch_illuminant_from_multipliers cache1 make1 model1 wb solve1 init1
        verb1 dis1 out1 err1).invoked = true →
      (fetch_illuminant_from_multipliers cache1 make1 model1 wb solve1 init1
        verb1 dis1 out1 err1).success = false →
      (solve1 init1).2.2 ≠ "" →
      (fetch_illuminant_from_multipliers cache1 make1 model1 wb solve1 init1
        verb1 dis1 out1 err1).error_message = (solve1 init1).2.2)
    ∧ ((fetch_illuminant_from_multipliers cache1 make1 model1 wb solve1 init1
        verb1 dis1 out1 err1).invoked = false →
      (fetch_illuminant_from_multipliers cache1 make1 model1 wb solve1 init1
        verb1 dis1 out1 err1).error_message = err1))
    ∧ (((fetch_multipliers_from_illuminant cache2 make2 model2 ill2 solve2
        init2 verb2 dis2 out2 err2).invoked = true →
      (fetch_multipliers_from_illuminant cache2 make2 model2 ill2 solve2
        init2 verb2 dis2 out2 err2).success = false →
      (solve2 init2).2.2 ≠ "" →
      (fetch_multipliers_from_illuminant cache2 make2 model2 ill2 solve2
        init2 verb2 dis2 out2 err2).error_message = (solve2 init2).2.2)
    ∧ ((fetch_multipliers_from_illuminant cache2 make2 model2 ill2 solve2
        init2 verb2 dis2 out2 err2).invoked = false →
      (fetch_multipliers_from_illuminant cache2 make2 model2 ill2 solve2
        init2 verb2 dis2 out2 err2).error_message = err2))
    ∧ (((fetch_matrix_from_illuminant cache3 make3 model3 ill3 solve3 init3
        verb3 dis3 out3 err3).success = false →
      (fetch_matrix_from_illuminant cache3 make3 model3 ill3 solve3 init3
        verb3 dis3 out3 err3).error_message ≠ "")
    ∧ ((fetch_matrix_from_illuminant cache3 make3 model3 ill3 solve3 init3
        verb3 dis3 out3 err3).success = false → err3 = "" →
      (fetch_matrix_from_illuminant cache3 make3 model3 ill3 solve3 init3
        verb3 dis3 out3 err3).error_message
        = "Failed to calculate IDT matrix from illuminant")
    ∧ ((fetch_matrix_from_illuminant cache3 make3 model3 ill3 solve3 init3
        verb3 dis3 out3 err3).success = false → err3 ≠ "" →
      (fetch_matrix_from_illuminant cache3 make3 model3 ill3 solve3 init3
        verb3 dis3 out3 err3).error_message = err3)) := by
  refine ⟨⟨?_, ?_⟩, ⟨?_, ?_⟩, ⟨?_, ?_, ?_⟩⟩
  · intro hinv hsucc hne
    simp only [fetch_illuminant_from_multipliers] at hinv hsucc ⊢
    simp [hinv, hsucc, hne]
  · intro hinv
    simp only [fetch_illuminant_from_multipliers] at hinv ⊢
    simp [hinv]
  · intro hinv hsucc hne
    simp only [fetch_multipliers_from_illuminant] at hinv hsucc ⊢
    simp [hinv, hsucc, hne]
  · intro hinv
    simp only [fetch_multipliers_from_illuminant] at hinv ⊢
    simp [hinv]
  · intro hsucc
    simp only [fetch_matrix_from_illuminant] at hsucc ⊢
    split at hsucc
    · rename_i hb
      rw [if_pos hb]
      by_cases he : err3 = "" <;> simp [he]
    · simp at hsucc
  · intro hsucc herr
    simp only [fetch_matrix_from_illuminant] at hsucc ⊢
    split at hsucc
    · rename_i hb
      rw [if_pos hb]
      simp [herr]
    · simp at hsucc
  · intro hsucc herr
    simp only [fetch_matrix_from_illuminant] at hsucc ⊢
    split at hsucc
    · rename_i hb
      rw [if_pos hb]
      simp [herr]
    · simp at hsucc

/-- Witness for C1 (amended): a computed failure on a cache miss propagates
the non-empty solve message into `error_message`. -/
theorem claim_C1_witness :
    (fetch_illuminant_from_multipliers (R := Int)
        (Cache.empty (CameraAndWBDescriptor Int) (IlluminantAndWBData Int) 10)
        "make" "model" (1, 1, 1)
        (fun data => (false, data, "solve failed")) ("", (0, 0, 0))
        0 false "" "").invoked = true ∧
    (fetch_illuminant_from_multipliers (R := Int)
        (Cache.empty (CameraAndWBDescriptor Int) (IlluminantAndWBData Int) 10)
        "make" "model" (1, 1, 1)
        (fun data => (false, data, "solve failed")) ("", (0, 0, 0))
        0 false "" "").success = false ∧
    ((fun data => ((false : Bool), data, "solve failed"))
        (("", (0, 0, 0)) : IlluminantAndWBData Int)).2.2 ≠ "" ∧
    (fetch_illuminant_from_multipliers (R := Int)
        (Cache.empty (CameraAndWBDescriptor Int) (IlluminantAndWBData Int) 10)
        "make" "model" (1, 1, 1)
        (fun data => (false, data, "solve failed")) ("", (0, 0, 0))
        0 false "" "").error_message = "solve failed" :=
  ⟨by decide, by decide, by decide,
   (claim_C1
      (Cache.empty (CameraAndWBDescriptor Int) (IlluminantAndWBData Int) 10)
      "make" "model" (1, 1, 1)
      (fun data => (false, data, "solve failed")) ("", (0, 0, 0))
      0 false "" ""
      (Cache.empty CameraAndIlluminantDescriptor
        (WBFromIlluminantData Int) 10)
      "m" "m" "i" (fun data => (true, data, "")) (0, 0, 0) 0 false [] ""
      (Cache.empty CameraAndIlluminantDescriptor (MatrixData Int) 10)
      "m" "m" "i" (fun data => (true, data))
      ((0, 0, 0), (0, 0, 0), (0, 0, 0)) 0 false [] "").1.1
     (by decide) (by decide) (by decide)⟩

/-- C4: when the direct solver sequence (`find_camera`, load training data,
load the observer, `find_illuminant`, `calculate_WB`,
`calculate_IDT_matrix`) succeeds with matrix `M`, the cached path
`fetch_matrix_from_illuminant` returns exactly the same matrix both on the
first, computing call and on a subsequent cache-hit call, and the second
call does not rerun the solve. Exact equality of the returned values
implies the 1e-5 numerical tolerance of the test. -/
theorem claim_C4 {R : Type} (core : SpectralCore R)
    (camera_make camera_model in_illuminant : String) (M : Mat3 R)
    (hdirect : direct_IDT_matrix core camera_make camera_model in_illuminant
      = some M)
    (cache0 : Cache CameraAndIlluminantDescriptor (MatrixData R))
    (hfresh : ∀ e ∈ cache0.map,
      e.1 ≠ (camera_make, camera_model, in_illuminant))
    (init : MatrixData R) (verbosity : Int)
    (out0 out1 : List (List R)) (err0 err1 : String) :
    (fetch_matrix_from_illuminant cache0 camera_make camera_model
      in_illuminant
      (solve_matrix_from_illuminant core camera_make camera_model
        in_illuminant)
      init verbosity false out0 err0).success = true
    ∧ (fetch_matrix_from_illuminant cache0 camera_make camera_model
      in_illuminant
      (solve_matrix_from_illuminant core camera_make camera_model
        in_illuminant)
      init verbosity false out0 err0).out = matrix_to_lists M
    ∧ (fetch_matrix_from_illuminant
      (fetch_matrix_from_illuminant cache0 camera_make camera_model
        in_illuminant
        (solve_matrix_from_illuminant core camera_make camera_model
          in_illuminant)
        init verbosity false out0 err0).cache
      camera_make camera_model in_illuminant
      (solve_matrix_from_illuminant core camera_make camera_model
        in_illuminant)
      init verbosity false out1 err1).success = true
    ∧ (fetch_matrix_from_illuminant
      (fetch_matrix_from_illuminant cache0 camera_make camera_model
        in_illuminant
        (solve_matrix_from_illuminant core camera_make camera_model
          in_illuminant)
        init verbosity false out0 err0).cache
      camera_make camera_model in_illuminant
      (solve_matrix_from_illuminant core camera_make camera_model
        in_illuminant)
      init verbosity false out1 err1).out = matrix_to_lists M
    ∧ (fetch_matrix_from_illuminant
      (fetch_matrix_from_illuminant cache0 camera_make camera_model
        in_illuminant
        (solve_matrix_from_illuminant core camera_make camera_model
          in_illuminant)
        init verbosity false out0 err0).cache
      camera_make camera_model in_illuminant
      (solve_matrix_from_illuminant core camera_make camera_model
        in_illuminant)
      init verbosity false out1 err1).invoked = false := by
  unfold direct_IDT_matrix at hdirect
  by_cases hcond : (core.find_camera_ok camera_make camera_model &&
      core.training_ok && core.observer_ok &&
      core.find_illuminant_ok in_illuminant &&
      core.calculate_WB_ok camera_make camera_model in_illuminant &&
      core.calculate_IDT_ok camera_make camera_model in_illuminant) = true
  · rw [if_pos hcond] at hdirect
    have hM : core.IDT_matrix camera_make camera_model in_illuminant = M :=
      Option.some.inj hdirect
    simp only [Bool.and_eq_true] at hcond
    obtain ⟨⟨⟨⟨⟨h1, h2⟩, h3⟩, h4⟩, h5⟩, h6⟩ := hcond
    have hsolve : solve_matrix_from_illuminant core camera_make camera_model
        in_illuminant init = (true, M) := by
      unfold solve_matrix_from_illuminant
      simp [h1, h2, h3, h4, h5, h6, hM]
    obtain ⟨ho1, _, ho3⟩ := Cache.fetch_miss
      { cache0 with verbosity := verbosity, disabled := false }
      (camera_make, camera_model, in_illuminant)
      (solve_matrix_from_illuminant core camera_make camera_model
        in_illuminant)
      init rfl hfresh
    rw [hsolve] at ho1 ho3
    obtain ⟨B, hB⟩ :
        ∃ B, (Cache.fetch
            { cache0 with verbosity := verbosity, disabled := false }
            (camera_make, camera_model, in_illuminant)
            (solve_matrix_from_illuminant core camera_make camera_model
              in_illuminant)
            init).state.map
          = ((camera_make, camera_model, in_illuminant), (true, M)) :: B :=
      ⟨_, ho3⟩
    obtain ⟨hh1, hh2, _⟩ := Cache.fetch_hit
      { (Cache.fetch
          { cache0 with verbosity := verbosity, disabled := false }
          (camera_make, camera_model, in_illuminant)
          (solve_matrix_from_illuminant core camera_make camera_model
            in_illuminant)
          init).state with verbosity := verbosity, disabled := false }
      (camera_make, camera_model, in_illuminant)
      (solve_matrix_from_illuminant core camera_make camera_model
        in_illuminant)
      init ((camera_make, camera_model, in_illuminant), (true, M)) [] B
      rfl (by simpa using hB) (by intro p hp; cases hp) rfl
    refine ⟨?_, ?_, ?_, ?_, ?_⟩ <;>
      simp [fetch_matrix_from_illuminant, ho1, hh1, hh2]
  · rw [if_neg hcond] at hdirect
    cases hdirect

/-- Witness for C4: a constant solver core over `Int` with all steps
succeeding and a fixed fitted matrix; the cache starts empty. -/
theorem claim_C4_witness :
    direct_IDT_matrix
      (⟨fun _ _ => true, true, true, fun _ => true, fun _ _ _ => true,
        fun _ _ _ => true, fun _ _ _ => ((1, 2, 3), (4, 5, 6), (7, 8, 9))⟩ :
        SpectralCore Int) "mk" "md" "D65"
      = some ((1, 2, 3), (4, 5, 6), (7, 8, 9)) ∧
    (∀ e ∈ (Cache.empty CameraAndIlluminantDescriptor (MatrixData Int)
        10).map, e.1 ≠ ("mk", "md", "D65")) ∧
    ((fetch_matrix_from_illuminant
      (Cache.empty CameraAndIlluminantDescriptor (MatrixData Int) 10)
      "mk" "md" "D65"
      (solve_matrix_from_illuminant
        (⟨fun _ _ => true, true, true, fun _ => true, fun _ _ _ => true,
          fun _ _ _ => true, fun _ _ _ => ((1, 2, 3), (4, 5, 6), (7, 8, 9))⟩ :
          SpectralCore Int) "mk" "md" "D65")
      ((0, 0, 0), (0, 0, 0), (0, 0, 0)) 0 false [] "").success = true
    ∧ (fetch_matrix_from_illuminant
      (Cache.empty CameraAndIlluminantDescriptor (MatrixData Int) 10)
      "mk" "md" "D65"
      (solve_matrix_from_illuminant
        (⟨fun _ _ => true, true, true, fun _ => true, fun _ _ _ => true,
          fun _ _ _ => true, fun _ _ _ => ((1, 2, 3), (4, 5, 6), (7, 8, 9))⟩ :
          SpectralCore Int) "mk" "md" "D65")
      ((0, 0, 0), (0, 0, 0), (0, 0, 0)) 0 false [] "").out
        = matrix_to_lists ((1, 2, 3), (4, 5, 6), (7, 8, 9))
    ∧ (fetch_matrix_from_illuminant
      (fetch_matrix_from_illuminant
        (Cache.empty CameraAndIlluminantDescriptor (MatrixData Int) 10)
        "mk" "md" "D65"
        (solve_matrix_from_illuminant
          (⟨fun _ _ => true, true, true, fun _ => true, fun _ _ _ => true,
            fun _ _ _ => true,
            fun _ _ _ => ((1, 2, 3), (4, 5, 6), (7, 8, 9))⟩ :
            SpectralCore Int) "mk" "md" "D65")
        ((0, 0, 0), (0, 0, 0), (0, 0, 0)) 0 false [] "").cache
      "mk" "md" "D65"
      (solve_matrix_from_illuminant
        (⟨fun _ _ => true, true, true, fun _ => true, fun _ _ _ => true,
          fun _ _ _ => true, fun _ _ _ => ((1, 2, 3), (4, 5, 6), (7, 8, 9))⟩ :
          SpectralCore Int) "mk" "md" "D65")
      ((0, 0, 0), (0, 0, 0), (0, 0, 0)) 0 false [[42]] "x").success = true
    ∧ (fetch_matrix_from_illuminant
      (fetch_matrix_from_illuminant
        (Cache.empty CameraAndIlluminantDescriptor (MatrixData Int) 10)
        "mk" "md" "D65"
        (solve_matrix_from_illuminant
          (⟨fun _ _ => true, true, true, fun _ => true, fun _ _ _ => true,
            fun _ _ _ => true,
            fun _ _ _ => ((1, 2, 3), (4, 5, 6), (7, 8, 9))⟩ :
            SpectralCore Int) "mk" "md" "D65")
        ((0, 0, 0), (0, 0, 0), (0, 0, 0)) 0 false [] "").cache
      "mk" "md" "D65"
      (solve_matrix_from_illuminant
        (⟨fun _ _ => true, true, true, fun _ => true, fun _ _ _ => true,
          fun _ _ _ => true, fun _ _ _ => ((1, 2, 3), (4, 5, 6), (7, 8, 9))⟩ :
          SpectralCore Int) "mk" "md" "D65")
      ((0, 0, 0), (0, 0, 0), (0, 0, 0)) 0 false [[42]] "x").out
        = matrix_to_lists ((1, 2, 3), (4, 5, 6), (7, 8, 9))
    ∧ (fetch_matrix_from_illuminant
      (fetch_matrix_from_illuminant
        (Cache.empty CameraAndIlluminantDescriptor (MatrixData Int) 10)
        "mk" "md" "D65"
        (solve_matrix_from_illuminant
          (⟨fun _ _ => true, true, true, fun _ => true, fun _ _ _ => true,
            fun _ _ _ => true,
            fun _ _ _ => ((1, 2, 3), (4, 5, 6), (7, 8, 9))⟩ :
            SpectralCore Int) "mk" "md" "D65")
        ((0, 0, 0), (0, 0, 0), (0, 0, 0)) 0 false [] "").cache
      "mk" "md" "D65"
      (solve_matrix_from_illuminant
        (⟨fun _ _ => true, true, true, fun _ => true, fun _ _ _ => true,
          fun _ _ _ => true, fun _ _ _ => ((1, 2, 3), (4, 5, 6), (7, 8, 9))⟩ :
          SpectralCore Int) "mk" "md" "D65")
      ((0, 0, 0), (0, 0, 0), (0, 0, 0)) 0 false [[42]] "x").invoked
        = false) :=
  ⟨rfl, by decide,
   claim_C4
     (⟨fun _ _ => true, true, true, fun _ => true, fun _ _ _ => true,
       fun _ _ _ => true, fun _ _ _ => ((1, 2, 3), (4, 5, 6), (7, 8, 9))⟩ :
       SpectralCore Int) "mk" "md" "D65"
     ((1, 2, 3), (4, 5, 6), (7, 8, 9)) rfl
     (Cache.empty CameraAndIlluminantDescriptor (MatrixData Int) 10)
     (by decide) ((0, 0, 0), (0, 0, 0), (0, 0, 0)) 0 [] [[42]] "" "x"⟩

/-- The Robertson scan only returns adjacent-in-table rows whose signed
distances bracket zero: the first non-negative, the second negative. -/
theorem robertson_scan_spec (sq : ℚ → ℚ) (uv : ℚ × ℚ) :
    ∀ (l : List RobertsonRow) (r1 r2 : RobertsonRow),
      robertson_scan sq uv l = some (r1, r2) →
      r1 ∈ l ∧ r2 ∈ l ∧ 0 ≤ robertson_length sq uv r1 ∧
        robertson_length sq uv r2 < 0 := by
  intro l
  induction l with
  | nil => intro r1 r2 h; simp [robertson_scan] at h
  | cons a l ih =>
    intro r1 r2 h
    cases l with
    | nil => simp [robertson_scan] at h
    | cons b l2 =>
      by_cases hc : 0 ≤ robertson_length sq uv a ∧
          robertson_length sq uv b < 0
      · rw [robertson_scan, if_pos hc] at h
        simp only [Option.some.injEq, Prod.mk.injEq] at h
        obtain ⟨rfl, rfl⟩ := h
        exact ⟨List.mem_cons_self _ _,
          List.mem_cons_of_mem _ (List.mem_cons_self _ _), hc.1, hc.2⟩
      · rw [robertson_scan, if_neg hc] at h
        obtain ⟨m1, m2, hd1, hd2⟩ := ih r1 r2 h
        exact ⟨List.mem_cons_of_mem _ m1, List.mem_cons_of_mem _ m2,
          hd1, hd2⟩

/-- C5: `XYZ_to_color_temperature` is total (it is a function into ℚ) and
its result always lies in [2000, 50000]: the interpolated mired value stays
within the mired span of the table, and when no bracketing pair exists the
result is exactly one of the two clamp values, 50000 K on the
high-temperature side and 2000 K beyond the low-temperature end. -/
theorem claim_C5 (sq : ℚ → ℚ) (table : List RobertsonRow)
    (htable : ∀ r ∈ table, 20 ≤ r.mired ∧ r.mired ≤ 500) (XYZ : ℚ × ℚ × ℚ) :
    (2000 ≤ XYZ_to_color_temperature sq table XYZ ∧
     XYZ_to_color_temperature sq table XYZ ≤ 50000)
    ∧ (robertson_scan sq (XYZ_to_uv XYZ) table = none →
       XYZ_to_color_temperature sq table XYZ = 50000 ∨
       XYZ_to_color_temperature sq table XYZ = 2000) := by
  constructor
  · simp only [XYZ_to_color_temperature]
    cases hscan : robertson_scan sq (XYZ_to_uv XYZ) table with
    | none =>
      cases table with
      | nil => norm_num
      | cons r0 rest =>
        by_cases h0 : robertson_length sq (XYZ_to_uv XYZ) r0 < 0 <;>
          simp [h0] <;> norm_num
    | some p =>
      obtain ⟨r1, r2⟩ := p
      obtain ⟨hm1, hm2, hd1, hd2⟩ :=
        robertson_scan_spec sq (XYZ_to_uv XYZ) table r1 r2 hscan
      obtain ⟨h1a, h1b⟩ := htable r1 hm1
      obtain ⟨h2a, h2b⟩ := htable r2 hm2
      dsimp only
      set d1 := robertson_length sq (XYZ_to_uv XYZ) r1 with hd1def
      set d2 := robertson_length sq (XYZ_to_uv XYZ) r2 with hd2def
      have hden : 0 < d1 - d2 := by linarith
      have hf0 : 0 ≤ d1 / (d1 - d2) := div_nonneg hd1 hden.le
      have hf1 : d1 / (d1 - d2) ≤ 1 := by
        rw [div_le_one hden]; linarith
      set f := d1 / (d1 - d2) with hfdef
      have hm_lo : 20 ≤ r1.mired + f * (r2.mired - r1.mired) := by
        nlinarith [mul_nonneg hf0 (sub_nonneg.mpr h2a),
          mul_nonneg (sub_nonneg.mpr hf1) (sub_nonneg.mpr h1a)]
      have hm_hi : r1.mired + f * (r2.mired - r1.mired) ≤ 500 := by
        nlinarith [mul_nonneg hf0 (sub_nonneg.mpr h2a),
          mul_nonneg (sub_nonneg.mpr hf1) (sub_nonneg.mpr h1a)]
      have hmpos : 0 < r1.mired + f * (r2.mired - r1.mired) := by linarith
      constructor
      · rw [le_div_iff₀ hmpos]
        nlinarith
      · rw [div_le_iff₀ hmpos]
        nlinarith
  · intro hnone
    simp only [XYZ_to_color_temperature]
    rw [hnone]
    cases table with
    | nil => right; rfl
    | cons r0 rest =>
      by_cases h0 : robertson_length sq (XYZ_to_uv XYZ) r0 < 0
      · left; simp [h0]
      · right; simp [h0]

/-- Witness for C5 on a two-row table spanning the full mired range. -/
theorem claim_C5_witness :
    (∀ r ∈ [(⟨20, 0, 0, 0⟩ : RobertsonRow), ⟨500, 0, 0, 0⟩],
      20 ≤ r.mired ∧ r.mired ≤ 500)
    ∧ ((2000 ≤ XYZ_to_color_temperature (fun x => x)
          [⟨20, 0, 0, 0⟩, ⟨500, 0, 0, 0⟩] (1, 1, 1) ∧
        XYZ_to_color_temperature (fun x => x)
          [⟨20, 0, 0, 0⟩, ⟨500, 0, 0, 0⟩] (1, 1, 1) ≤ 50000)
      ∧ (robertson_scan (fun x => x) (XYZ_to_uv (1, 1, 1))
          [⟨20, 0, 0, 0⟩, ⟨500, 0, 0, 0⟩] = none →
        XYZ_to_color_temperature (fun x => x)
          [⟨20, 0, 0, 0⟩, ⟨500, 0, 0, 0⟩] (1, 1, 1) = 50000 ∨
        XYZ_to_color_temperature (fun x => x)
          [⟨20, 0, 0, 0⟩, ⟨500, 0, 0, 0⟩] (1, 1, 1) = 2000)) :=
  ⟨by norm_num,
   claim_C5 (fun x => x) [⟨20, 0, 0, 0⟩, ⟨500, 0, 0, 0⟩]
     (by norm_num) (1, 1, 1)⟩

/-- C6: with fewer than two usable calibration illuminants (one of the two
light-source codes is zero), `find_XYZ_to_camera_matrix` logs exactly
"No calibration illuminants were found." and returns the first
calibration's XYZ-to-camera matrix unchanged; with both illuminants usable
but an empty neutral-RGB vector it logs exactly
"No neutral RGB values were found." and likewise returns the first
calibration's matrix unchanged. -/
theorem claim_C6 {R : Type} (refine : Metadata R → List R → List R)
    (metadata : Metadata R) (neutralRGB : List R) :
    ((metadata.calibration.1.illuminant = 0 ∨
      metadata.calibration.2.illuminant = 0) →
      find_XYZ_to_camera_matrix refine metadata neutralRGB
        = (metadata.calibration.1.XYZ_to_RGB_matrix,
           ["No calibration illuminants were found."]))
    ∧ (metadata.calibration.1.illuminant ≠ 0 →
      metadata.calibration.2.illuminant ≠ 0 →
      neutralRGB.isEmpty = true →
      find_XYZ_to_camera_matrix refine metadata neutralRGB
        = (metadata.calibration.1.XYZ_to_RGB_matrix,
           ["No neutral RGB values were found."])) := by
  constructor
  · intro h
    unfold find_XYZ_to_camera_matrix
    rcases h with h | h
    · by_cases h2 : metadata.calibration.2.illuminant = 0 <;> simp [h, h2]
    · by_cases h1 : metadata.calibration.1.illuminant = 0 <;> simp [h, h1]
  · intro h1 h2 hempty
    unfold find_XYZ_to_camera_matrix
    simp [h1, h2, hempty]

/-- Witness for C6 on concrete metadata over `Int`: the no-illuminant path
with `calibration[0].illuminant = 0`. -/
theorem claim_C6_witness :
    ((⟨(⟨0, [], [1, 2, 3]⟩, ⟨21, [], [4, 5, 6]⟩), [1], 0⟩ :
        Metadata Int).calibration.1.illuminant = 0 ∨
     (⟨(⟨0, [], [1, 2, 3]⟩, ⟨21, [], [4, 5, 6]⟩), [1], 0⟩ :
        Metadata Int).calibration.2.illuminant = 0)
    ∧ find_XYZ_to_camera_matrix (fun _ _ => [])
        (⟨(⟨0, [], [1, 2, 3]⟩, ⟨21, [], [4, 5, 6]⟩), [1], 0⟩ : Metadata Int)
        [1]
      = ((⟨(⟨0, [], [1, 2, 3]⟩, ⟨21, [], [4, 5, 6]⟩), [1], 0⟩ :
            Metadata Int).calibration.1.XYZ_to_RGB_matrix,
         ["No calibration illuminants were found."]) :=
  ⟨Or.inl rfl,
   (claim_C6 (fun _ _ => [])
      (⟨(⟨0, [], [1, 2, 3]⟩, ⟨21, [], [4, 5, 6]⟩), [1], 0⟩ : Metadata Int)
      [1]).1 (Or.inl rfl)⟩

/-- C7: tag values at or above 32768 return `tag - 32768` Kelvin literally
(0 K for exactly 32768); a tag below 32768 that the fixed table maps
returns the table's nominal temperature; every other tag returns 5500 K. -/
theorem claim_C7 (tag : Nat) (htag : tag < 65536) :
    (32768 ≤ tag → light_source_to_color_temp tag = (tag : ℚ) - 32768)
    ∧ (tag < 32768 → ∀ temp : ℚ,
        light_source_table.lookup tag = some temp →
        light_source_to_color_temp tag = temp)
    ∧ (tag < 32768 → light_source_table.lookup tag = none →
        light_source_to_color_temp tag = 5500) := by
  refine ⟨?_, ?_, ?_⟩
  · intro h
    unfold light_source_to_color_temp
    rw [if_pos h]
  · intro h temp hl
    unfold light_source_to_color_temp
    rw [if_neg (by omega), hl]
  · intro h hl
    unfold light_source_to_color_temp
    rw [if_neg (by omega), hl]

/-- Witness for C7: tag 32768 yields 0 K via the extended-tag branch. -/
theorem claim_C7_witness :
    32768 < 65536 ∧ 32768 ≤ 32768 ∧
    light_source_to_color_temp 32768 = (32768 : ℚ) - 32768 :=
  ⟨by decide, by decide, (claim_C7 32768 (by decide)).1 (by decide)⟩

end RTA
